import Mathlib

/-!
Verification of the `foreign-types` crate (src/foreign-types/src/lib.rs), a
framework for Rust wrappers over C APIs.  The crate's own source consists of
the canonical worked example in its module documentation (the `Foo`/`FooRef`
pair, its `Drop`, `Deref`/`DerefMut` and `ForeignType` implementations) plus
the `foreign_type!` front end that forwards to the sibling procedural
crate.  The example pair is embedded here directly from that source; the
pieces living in the sibling crates (`ForeignTypeRef`'s default conversion
methods, the `Opaque` marker, and the code generation performed by the
procedural crate) are modelled from the specification, as marked on each
definition.

Raw C pointers (`*mut foo_sys::FOO`) are modelled as natural-number
addresses, with the null pointer at address 0.  FFI side effects (calls to
`FOO_free`) are made observable by having effectful operations return the
list of freed pointers alongside their result.
-/

namespace ForeignTypes

/-- Modelled from the spec: `Opaque`, the "zero-size, non-constructible
marker type used as the internal representation of borrowed-reference
types" (crate `foreign-types-shared`, re-exported by src/foreign-types/src/lib.rs
but not itself under src/).  Non-constructibility is modelled by an
inductive type with no constructors. -/
inductive Opaque : Type

/-- `pub struct FooRef(Opaque);` — the borrowed type is a newtype wrapper
around an `Opaque` value.  As the source notes, "`FooRef` values never
exist; we instead create references to `FooRef`s from raw C pointers." -/
structure FooRef : Type where
  repr : Opaque

/-- A reference `&FooRef` / `&mut FooRef` manufactured from a raw pointer.
Modelled from the spec: borrowed references "are manufactured directly from
RawPointer values"; the model records the backing address and whether the
reference is exclusive (`&mut`). -/
structure FooRefHandle : Type where
  addr : Nat
  exclusive : Bool
  deriving DecidableEq, Repr

/-- Modelled from the spec: `ForeignTypeRef::from_ptr` — "produces an
immutable reference to the borrowed type from a non-null raw pointer"
(default method of `ForeignTypeRef` in `foreign-types-shared`, not under
src/). -/
def FooRef.from_ptr (ptr : Nat) : FooRefHandle :=
  ⟨ptr, false⟩

/-- Modelled from the spec: `ForeignTypeRef::from_ptr_mut` — "as above but
produces an exclusive reference". -/
def FooRef.from_ptr_mut (ptr : Nat) : FooRefHandle :=
  ⟨ptr, true⟩

/-- Modelled from the spec: `ForeignTypeRef::as_ptr` — "extracts the
underlying pointer without consuming or invalidating the reference". -/
def FooRefHandle.as_ptr (r : FooRefHandle) : Nat :=
  r.addr

/-- `pub struct Foo(NonNull<foo_sys::FOO>);` — the owned type is a newtype
wrapper around the raw C pointer; `NonNull` carries the non-null
invariant. -/
structure Foo : Type where
  ptr : Nat
  ptr_ne : ptr ≠ 0

/-- `unsafe fn from_ptr(ptr: *mut foo_sys::FOO) -> Foo { Foo(NonNull::new_unchecked(ptr)) }`.
The caller-guaranteed non-nullness precondition of `NonNull::new_unchecked`
appears as the hypothesis `h`. -/
def Foo.from_ptr (ptr : Nat) (h : ptr ≠ 0) : Foo :=
  ⟨ptr, h⟩

/-- `fn as_ptr(&self) -> *mut foo_sys::FOO { self.0.as_ptr() }` -/
def Foo.as_ptr (f : Foo) : Nat :=
  f.ptr

/-- `impl Deref for Foo`:
`fn deref(&self) -> &FooRef { unsafe { FooRef::from_ptr(self.as_ptr()) } }` -/
def Foo.deref (f : Foo) : FooRefHandle :=
  FooRef.from_ptr f.as_ptr

/-- `impl DerefMut for Foo`:
`fn deref_mut(&mut self) -> &mut FooRef { unsafe { FooRef::from_ptr_mut(self.as_ptr()) } }` -/
def Foo.deref_mut (f : Foo) : FooRefHandle :=
  FooRef.from_ptr_mut f.as_ptr

/-- `impl Drop for Foo`:
`fn drop(&mut self) { unsafe { foo_sys::FOO_free(self.as_ptr()) } }`.
The result is the list of pointers passed to `FOO_free` by the call. -/
def Foo.drop (f : Foo) : List Nat :=
  [f.as_ptr]

/-- The borrowing accessors available on a live owned value, before its
disposal: `as_ptr`, `deref` and `deref_mut`. -/
inductive BorrowOp : Type
  | as_ptr : BorrowOp
  | deref : BorrowOp
  | deref_mut : BorrowOp
  deriving DecidableEq, Repr

/-- The pointers a borrowing accessor passes to `FOO_free`: none, since
`as_ptr` only reads the stored field and `deref`/`deref_mut` only call
`FooRef::from_ptr`/`from_ptr_mut`, which perform no FFI release call. -/
def BorrowOp.freeCalls : BorrowOp → Foo → List Nat
  | .as_ptr, _ => []
  | .deref, _ => []
  | .deref_mut, _ => []

/-- All pointers passed to `FOO_free` over an owned value's lifetime: the
calls made by each borrowing access in order, then the call made by `Drop`
at disposal. -/
def Foo.lifetimeFrees (f : Foo) (ops : List BorrowOp) : List Nat :=
  (ops.flatMap fun op => op.freeCalls f) ++ f.drop

/-! ### The foreign heap and the optional duplicate operation -/

/-- The foreign heap: a finite map from non-null addresses to the foreign
data stored there (data abstracted as a natural number), as an association
list. -/
abbrev Heap : Type := List (Nat × Nat)

/-- The addresses currently allocated on the foreign heap. -/
def Heap.dom (h : Heap) : List Nat :=
  h.map Prod.fst

/-- An address strictly above every allocated address (and above 0). -/
def Heap.freshAddr (h : Heap) : Nat :=
  (h.dom.foldr max 0) + 1

/-- Modelled from the spec: the configured duplicate operation
(`fn clone = foo_sys::FOO_duplicate`, an external collaborator's entry
point) "must yield a new, independently owned pointer of the same foreign
type" holding logically equal data: it allocates a fresh non-null address
and copies the pointed-to data there. -/
def FOO_duplicate (h : Heap) (p : Nat) : Nat × Heap :=
  let q := h.freshAddr
  (q, (q, (h.lookup p).getD 0) :: h)

/-- Every allocated address is at most `h.dom.foldr max 0`. -/
theorem Heap.le_foldr_max (h : Heap) (p : Nat) (hp : p ∈ h.dom) :
    p ≤ h.dom.foldr max 0 := by
  induction h with
  | nil => simp [Heap.dom] at hp
  | cons a t ih =>
    simp only [Heap.dom, List.map_cons, List.mem_cons] at hp
    simp only [Heap.dom, List.map_cons, List.foldr_cons]
    rcases hp with hp | hp
    · exact hp ▸ Nat.le_max_left _ _
    · exact le_trans (ih hp) (Nat.le_max_right _ _)

/-- The fresh address is never null. -/
theorem Heap.freshAddr_ne_zero (h : Heap) : h.freshAddr ≠ 0 := by
  simp [Heap.freshAddr]

/-- The fresh address is not currently allocated. -/
theorem Heap.freshAddr_not_mem (h : Heap) : h.freshAddr ∉ h.dom := by
  intro hm
  have := Heap.le_foldr_max h _ hm
  simp [Heap.freshAddr] at this

/-- The generated `impl Clone for Foo` when `fn clone` is configured:
`unsafe { Foo::from_ptr(foo_sys::FOO_duplicate(self.as_ptr())) }`
(modelled from the spec: the macro expansion lives in
`foreign-types-macros`, not under src/).  Returns the fresh owned value
together with the heap after the foreign copy. -/
def Foo.clone (h : Heap) (f : Foo) : Foo × Heap :=
  (Foo.from_ptr (FOO_duplicate h f.as_ptr).1
    (Heap.freshAddr_ne_zero h), (FOO_duplicate h f.as_ptr).2)

/-! ### The declarative generation facility (`foreign_type!`) -/

/-- The kinds of field a `foreign_type!` declaration body supplies:
the wrapper type name (`pub type Foo`), the foreign element type
(`type CType = ...`), the release operation (`fn drop = ...`) and the
optional duplicate operation (`fn clone = ...`). -/
inductive FieldKind : Type
  | name : FieldKind
  | ctype : FieldKind
  | dropFn : FieldKind
  | cloneFn : FieldKind
  deriving DecidableEq, Repr

/-- Whether a field kind is mandatory in a declaration (name, foreign
pointer type, release operation); the duplicate operation is optional. -/
def FieldKind.mandatory : FieldKind → Bool
  | .name => true
  | .ctype => true
  | .dropFn => true
  | .cloneFn => false

/-- One field of a declaration, carrying its textual payload. -/
inductive Field : Type
  | name (s : String) : Field
  | ctype (s : String) : Field
  | dropFn (s : String) : Field
  | cloneFn (s : String) : Field
  deriving DecidableEq, Repr

/-- The kind of a declaration field. -/
def Field.kind : Field → FieldKind
  | .name _ => .name
  | .ctype _ => .ctype
  | .dropFn _ => .dropFn
  | .cloneFn _ => .cloneFn

/-- A declaration given to the generation facility: the list of fields it
supplies (documentation and thread-safety markers, which take no part in
validation, are omitted). -/
abbrev Decl : Type := List Field

/-- How many fields of kind `k` a declaration supplies. -/
def Decl.countKind (d : Decl) (k : FieldKind) : Nat :=
  d.countP fun f => f.kind = k

/-- The payload of the first field of kind `k`, if any. -/
def Decl.payload (d : Decl) (k : FieldKind) : Option String :=
  (d.find? fun f => f.kind = k).map fun f =>
    match f with
    | .name s => s
    | .ctype s => s
    | .dropFn s => s
    | .cloneFn s => s

/-- A generation-time diagnostic, identifying the offending field kind and
whether it was missing or duplicated/conflicting. -/
structure Diag : Type where
  offending : FieldKind
  missing : Bool
  deriving DecidableEq, Repr

/-- A generated wrapper pair: the resolved name, foreign element type and
release operation, and the duplicate operation when one was configured. -/
structure Generated : Type where
  name : String
  ctype : String
  dropFn : String
  cloneFn : Option String
  deriving DecidableEq, Repr

/-- The operation set a generated pair exposes at runtime. -/
inductive GenOp : Type
  | from_ptr : GenOp
  | as_ptr : GenOp
  | deref : GenOp
  | deref_mut : GenOp
  | drop : GenOp
  | clone : GenOp
  deriving DecidableEq, Repr

/-- The operations generated for a pair: pointer adoption, pointer
extraction, both dereferences and release-on-disposal always; duplication
only when a duplicate operation was configured. -/
def Generated.ops (g : Generated) : List GenOp :=
  [.from_ptr, .as_ptr, .deref, .deref_mut, .drop]
    ++ if g.cloneFn.isSome then [.clone] else []

/-- Checks one field kind of a declaration: mandatory kinds must appear
exactly once, optional kinds at most once; otherwise the check fails with
a diagnostic naming the kind. -/
def Decl.checkKind (d : Decl) (k : FieldKind) : Except Diag Unit :=
  if d.countKind k ≥ 2 then .error ⟨k, false⟩
  else if k.mandatory ∧ d.countKind k = 0 then .error ⟨k, true⟩
  else .ok ()

/-- Modelled from the spec: the generation facility (`foreign_type!`,
expanded by the `foreign-types-macros` crate, not under src/).  "Malformed
or incomplete declarations are rejected at generation time with an
identifying diagnostic"; a valid declaration yields the full generated
pair.  All validation happens here; the returned `Generated` value
performs no further checks. -/
def generate (d : Decl) : Except Diag Generated :=
  match d.checkKind .name, d.checkKind .ctype,
      d.checkKind .dropFn, d.checkKind .cloneFn with
  | .error e, _, _, _ => .error e
  | .ok _, .error e, _, _ => .error e
  | .ok _, .ok _, .error e, _ => .error e
  | .ok _, .ok _, .ok _, .error e => .error e
  | .ok _, .ok _, .ok _, .ok _ =>
    .ok
      { name := (d.payload .name).getD ""
        ctype := (d.payload .ctype).getD ""
        dropFn := (d.payload .dropFn).getD ""
        cloneFn := d.payload .cloneFn }

/-- A well-formed declaration: every mandatory kind exactly once, the
optional kind at most once. -/
def Decl.wellFormed (d : Decl) : Prop :=
  d.countKind .name = 1 ∧ d.countKind .ctype = 1 ∧ d.countKind .dropFn = 1
    ∧ d.countKind .cloneFn ≤ 1

instance (d : Decl) : Decidable d.wellFormed := by
  unfold Decl.wellFormed
  infer_instance

/-! ### Call-effect forms of the borrowing accessors

`fn as_ptr(&self)` takes a shared borrow: its complete observable effect is
the returned pointer, the receiver as the call leaves it, and the FFI
release calls it makes.  The body `self.0.as_ptr()` only reads the stored
field, so the receiver is returned unchanged and no release call is made. -/

/-- Call-effect form of `ForeignType::as_ptr` on the owned value:
(result, receiver after the call, pointers passed to `FOO_free`). -/
def Foo.as_ptr_call (f : Foo) : Nat × Foo × List Nat :=
  (f.ptr, f, [])

/-- Call-effect form of `ForeignTypeRef::as_ptr` on a borrowed reference
(modelled from the spec: it "extracts the underlying pointer without
consuming or invalidating the reference"): (result, reference after the
call, pointers passed to `FOO_free`). -/
def FooRefHandle.as_ptr_call (r : FooRefHandle) : Nat × FooRefHandle × List Nat :=
  (r.addr, r, [])

/-! ### Helper lemmas -/

/-- No borrowing accessor passes any pointer to `FOO_free`. -/
theorem BorrowOp.freeCalls_eq_nil (op : BorrowOp) (f : Foo) :
    op.freeCalls f = [] := by
  cases op <;> rfl

/-- The borrowing phase of a lifetime releases nothing. -/
theorem borrow_phase_frees_nothing (f : Foo) (ops : List BorrowOp) :
    (ops.flatMap fun op => op.freeCalls f) = [] := by
  induction ops with
  | nil => rfl
  | cons op t ih => simp [List.flatMap_cons, BorrowOp.freeCalls_eq_nil, ih]

/-- An allocated address has a stored value. -/
theorem Heap.lookup_isSome {h : Heap} {p : Nat} (hp : p ∈ h.dom) :
    (h.lookup p).isSome := by
  induction h with
  | nil => simp [Heap.dom] at hp
  | cons a t ih =>
    simp only [Heap.dom, List.map_cons, List.mem_cons] at hp
    by_cases hpa : p = a.1
    · simp [List.lookup, hpa]
    · have hb : (p == a.1) = false := beq_eq_false_iff_ne.mpr hpa
      rcases hp with hp | hp
      · exact absurd hp hpa
      · simp only [List.lookup, hb]
        exact ih hp

/-- Looking up past a cons cell with a different key. -/
theorem Heap.lookup_cons_ne (h : Heap) (q v p : Nat) (hne : p ≠ q) :
    ((q, v) :: h : Heap).lookup p = h.lookup p := by
  have hb : (p == q) = false := beq_eq_false_iff_ne.mpr hne
  simp [List.lookup, hb]

/-- A field check succeeds exactly when the kind's multiplicity is legal. -/
theorem Decl.checkKind_ok (d : Decl) (k : FieldKind)
    (hlo : k.mandatory = true → d.countKind k ≠ 0) (hhi : d.countKind k < 2) :
    d.checkKind k = .ok () := by
  unfold Decl.checkKind
  rw [if_neg (by omega)]
  rw [if_neg]
  rintro ⟨hm, hz⟩
  exact hlo hm hz

/-- A repeated field fails its check with a conflict diagnostic. -/
theorem Decl.checkKind_conflict (d : Decl) (k : FieldKind)
    (hhi : d.countKind k ≥ 2) : d.checkKind k = .error ⟨k, false⟩ := by
  unfold Decl.checkKind
  rw [if_pos hhi]

/-- A missing mandatory field fails its check with a missing diagnostic. -/
theorem Decl.checkKind_missing (d : Decl) (k : FieldKind)
    (hm : k.mandatory = true) (hz : d.countKind k = 0) :
    d.checkKind k = .error ⟨k, true⟩ := by
  unfold Decl.checkKind
  rw [if_neg (by omega), if_pos ⟨hm, hz⟩]

/-- On a well-formed declaration, generation succeeds and returns the
fields' payloads. -/
theorem generate_ok_of_wellFormed (d : Decl) (hwf : d.wellFormed) :
    generate d = .ok
      { name := (d.payload .name).getD ""
        ctype := (d.payload .ctype).getD ""
        dropFn := (d.payload .dropFn).getD ""
        cloneFn := d.payload .cloneFn } := by
  obtain ⟨h1, h2, h3, h4⟩ := hwf
  unfold generate
  rw [Decl.checkKind_ok d .name (fun _ => by omega) (by omega),
    Decl.checkKind_ok d .ctype (fun _ => by omega) (by omega),
    Decl.checkKind_ok d .dropFn (fun _ => by omega) (by omega),
    Decl.checkKind_ok d .cloneFn (fun hm => by simp [FieldKind.mandatory] at hm)
      (by omega)]

/-- A kind that no supplied field has yields no payload. -/
theorem Decl.payload_eq_none (d : Decl) (k : FieldKind)
    (hz : d.countKind k = 0) : d.payload k = none := by
  unfold Decl.payload
  rw [List.find?_eq_none.mpr]
  · rfl
  · intro f hf
    simp only [Decl.countKind, List.countP_eq_zero] at hz
    exact hz f hf

/-! ### Claim theorems -/

/-- The concrete non-null address used by the witnesses. -/
theorem three_ne_zero : (3 : Nat) ≠ 0 := by decide

/-- C1: for every owned wrapper adopted from a non-null pointer,
dereferencing to the borrowed reference (immutably or exclusively) and
applying `as_ptr` there returns the same pointer `as_ptr` returns on the
owned value itself. -/
theorem deref_as_ptr_eq_as_ptr (p : Nat) (h : p ≠ 0) :
    ((Foo.from_ptr p h).deref).as_ptr = (Foo.from_ptr p h).as_ptr
      ∧ ((Foo.from_ptr p h).deref_mut).as_ptr = (Foo.from_ptr p h).as_ptr :=
  ⟨rfl, rfl⟩

/-- Witness for C1 at the concrete pointer 3. -/
theorem deref_as_ptr_eq_as_ptr_witness :
    (3 : Nat) ≠ 0
      ∧ (((Foo.from_ptr 3 three_ne_zero).deref).as_ptr
            = (Foo.from_ptr 3 three_ne_zero).as_ptr
          ∧ ((Foo.from_ptr 3 three_ne_zero).deref_mut).as_ptr
            = (Foo.from_ptr 3 three_ne_zero).as_ptr) :=
  ⟨three_ne_zero, deref_as_ptr_eq_as_ptr 3 three_ne_zero⟩

/-- C2: over the lifetime of an owned value adopted from `p` — any sequence
of borrowing accesses followed by disposal — `FOO_free` is called exactly
once, with `p` as its argument, by `Drop` at disposal; the borrowing
accessors themselves call it never. -/
theorem release_exactly_once (p : Nat) (hp : p ≠ 0) (ops : List BorrowOp) :
    (Foo.lifetimeFrees (Foo.from_ptr p hp) ops).count p = 1
      ∧ (ops.flatMap fun op => op.freeCalls (Foo.from_ptr p hp)) = []
      ∧ Foo.drop (Foo.from_ptr p hp) = [p] := by
  refine ⟨?_, borrow_phase_frees_nothing _ ops, rfl⟩
  simp [Foo.lifetimeFrees, Foo.drop, borrow_phase_frees_nothing,
    Foo.as_ptr, Foo.from_ptr]

/-- Witness for C2 at pointer 3 with one access of each borrowing kind. -/
theorem release_exactly_once_witness :
    (3 : Nat) ≠ 0
      ∧ ((Foo.lifetimeFrees (Foo.from_ptr 3 three_ne_zero)
            [.as_ptr, .deref, .deref_mut]).count 3 = 1
          ∧ ([BorrowOp.as_ptr, .deref, .deref_mut].flatMap fun op =>
              op.freeCalls (Foo.from_ptr 3 three_ne_zero)) = []
          ∧ Foo.drop (Foo.from_ptr 3 three_ne_zero) = [3]) :=
  ⟨three_ne_zero,
    release_exactly_once 3 three_ne_zero [.as_ptr, .deref, .deref_mut]⟩

/-- C3: `from_ptr` and `from_ptr_mut` applied to the same non-null pointer
yield references whose `as_ptr` equals that pointer. -/
theorem from_ptr_roundtrip (p : Nat) (_hp : p ≠ 0) :
    (FooRef.from_ptr p).as_ptr = p ∧ (FooRef.from_ptr_mut p).as_ptr = p :=
  ⟨rfl, rfl⟩

/-- Witness for C3 at the concrete pointer 3. -/
theorem from_ptr_roundtrip_witness :
    (3 : Nat) ≠ 0
      ∧ ((FooRef.from_ptr 3).as_ptr = 3 ∧ (FooRef.from_ptr_mut 3).as_ptr = 3) :=
  ⟨three_ne_zero, from_ptr_roundtrip 3 three_ne_zero⟩

/-- C9: `as_ptr` is observation-only.  On the owned value it returns the
stored pointer, leaves the receiver exactly as it was — so the value stays
usable with the same pointer — and performs no release call; likewise on a
borrowed reference, which is neither consumed nor invalidated. -/
theorem as_ptr_observation_only (f : Foo) (r : FooRefHandle) :
    f.as_ptr_call = (f.as_ptr, f, [])
      ∧ (f.as_ptr_call.2.1).as_ptr = f.as_ptr
      ∧ BorrowOp.freeCalls .as_ptr f = []
      ∧ r.as_ptr_call = (r.as_ptr, r, []) :=
  ⟨rfl, rfl, rfl, rfl⟩

/-- C10: pointer adoption stores the pointer unchanged — `as_ptr` after
`from_ptr` returns exactly the adopted pointer — and the owned wrapper
carries no state besides that single pointer: wrappers with equal pointers
are equal. -/
theorem from_ptr_as_ptr_identity (p : Nat) (hp : p ≠ 0) :
    (Foo.from_ptr p hp).as_ptr = p
      ∧ ∀ f g : Foo, f.as_ptr = g.as_ptr → f = g := by
  refine ⟨rfl, fun f g hfg => ?_⟩
  cases f
  cases g
  simpa [Foo.as_ptr] using hfg

/-- Witness for C10 at the concrete pointer 3. -/
theorem from_ptr_as_ptr_identity_witness :
    (3 : Nat) ≠ 0
      ∧ ((Foo.from_ptr 3 three_ne_zero).as_ptr = 3
          ∧ ∀ f g : Foo, f.as_ptr = g.as_ptr → f = g) :=
  ⟨three_ne_zero, from_ptr_as_ptr_identity 3 three_ne_zero⟩

/-- The concrete non-null address 1, used by the heap witnesses. -/
theorem one_ne_zero_nat : (1 : Nat) ≠ 0 := by decide

/-- C4: duplicating a live owned value yields a fresh owned value whose
pointer differs from the original's, is not a previously allocated address
(so it is independently owned), and stores data equal to the original's;
the original's data is untouched. -/
theorem clone_fresh_and_equal (h : Heap) (f : Foo) (hf : f.as_ptr ∈ h.dom) :
    (Foo.clone h f).1.as_ptr ≠ f.as_ptr
      ∧ (Foo.clone h f).1.as_ptr ∉ h.dom
      ∧ (Foo.clone h f).2.lookup ((Foo.clone h f).1.as_ptr)
          = (Foo.clone h f).2.lookup f.as_ptr
      ∧ (Foo.clone h f).2.lookup f.as_ptr = h.lookup f.as_ptr := by
  have hq1 : (Foo.clone h f).1.as_ptr = h.freshAddr := rfl
  have hne : h.freshAddr ≠ f.as_ptr := fun e => Heap.freshAddr_not_mem h (e ▸ hf)
  have h2eq : (Foo.clone h f).2
      = ((h.freshAddr, (h.lookup f.as_ptr).getD 0) :: h : Heap) := rfl
  obtain ⟨v0, hv0⟩ := Option.isSome_iff_exists.mp (Heap.lookup_isSome hf)
  have hlook_new :
      ((h.freshAddr, (h.lookup f.as_ptr).getD 0) :: h : Heap).lookup h.freshAddr
        = some ((h.lookup f.as_ptr).getD 0) := by
    simp [List.lookup]
  have hlook_old :
      ((h.freshAddr, (h.lookup f.as_ptr).getD 0) :: h : Heap).lookup f.as_ptr
        = h.lookup f.as_ptr :=
    Heap.lookup_cons_ne h h.freshAddr ((h.lookup f.as_ptr).getD 0) f.as_ptr
      fun e => hne e.symm
  refine ⟨?_, ?_, ?_, ?_⟩
  · rw [hq1]; exact hne
  · rw [hq1]; exact Heap.freshAddr_not_mem h
  · rw [hq1, h2eq, hlook_new, hlook_old, hv0]
    simp
  · rw [h2eq]; exact hlook_old

/-- Witness for C4 on the heap holding 42 at address 1. -/
theorem clone_fresh_and_equal_witness :
    (Foo.from_ptr 1 one_ne_zero_nat).as_ptr ∈ Heap.dom [(1, 42)]
      ∧ ((Foo.clone [(1, 42)] (Foo.from_ptr 1 one_ne_zero_nat)).1.as_ptr
            ≠ (Foo.from_ptr 1 one_ne_zero_nat).as_ptr
          ∧ (Foo.clone [(1, 42)] (Foo.from_ptr 1 one_ne_zero_nat)).1.as_ptr
            ∉ Heap.dom [(1, 42)]
          ∧ (Foo.clone [(1, 42)] (Foo.from_ptr 1 one_ne_zero_nat)).2.lookup
              ((Foo.clone [(1, 42)] (Foo.from_ptr 1 one_ne_zero_nat)).1.as_ptr)
            = (Foo.clone [(1, 42)] (Foo.from_ptr 1 one_ne_zero_nat)).2.lookup
              ((Foo.from_ptr 1 one_ne_zero_nat).as_ptr)
          ∧ (Foo.clone [(1, 42)] (Foo.from_ptr 1 one_ne_zero_nat)).2.lookup
              ((Foo.from_ptr 1 one_ne_zero_nat).as_ptr)
            = ([(1, 42)] : Heap).lookup ((Foo.from_ptr 1 one_ne_zero_nat).as_ptr)) :=
  ⟨by decide, clone_fresh_and_equal [(1, 42)] (Foo.from_ptr 1 one_ne_zero_nat)
    (by decide)⟩

/-- Generation stops at a failing name check. -/
theorem generate_error_name (d : Decl) (e : Diag)
    (h1 : d.checkKind .name = .error e) : generate d = .error e := by
  unfold generate
  rw [h1]

/-- Generation stops at a failing foreign-type check. -/
theorem generate_error_ctype (d : Decl) (e : Diag)
    (h1 : d.checkKind .name = .ok ()) (h2 : d.checkKind .ctype = .error e) :
    generate d = .error e := by
  unfold generate
  rw [h1, h2]

/-- Generation stops at a failing release-operation check. -/
theorem generate_error_dropFn (d : Decl) (e : Diag)
    (h1 : d.checkKind .name = .ok ()) (h2 : d.checkKind .ctype = .ok ())
    (h3 : d.checkKind .dropFn = .error e) : generate d = .error e := by
  unfold generate
  rw [h1, h2, h3]

/-- Generation stops at a failing duplicate-operation check. -/
theorem generate_error_cloneFn (d : Decl) (e : Diag)
    (h1 : d.checkKind .name = .ok ()) (h2 : d.checkKind .ctype = .ok ())
    (h3 : d.checkKind .dropFn = .ok ()) (h4 : d.checkKind .cloneFn = .error e) :
    generate d = .error e := by
  unfold generate
  rw [h1, h2, h3, h4]

/-- C5: a well-formed declaration that omits the duplicate operation
generates a pair with no configured duplicate and no duplication operation
in its runtime operation set at all. -/
theorem no_clone_without_config (d : Decl) (hwf : d.wellFormed)
    (hnc : d.countKind .cloneFn = 0) :
    ∃ g, generate d = .ok g ∧ g.cloneFn = none ∧ GenOp.clone ∉ g.ops := by
  refine ⟨_, generate_ok_of_wellFormed d hwf, ?_, ?_⟩
  · simpa using Decl.payload_eq_none d .cloneFn hnc
  · simp [Generated.ops, Decl.payload_eq_none d .cloneFn hnc]

/-- Witness for C5 on a minimal concrete declaration. -/
theorem no_clone_without_config_witness :
    Decl.wellFormed [Field.name "Foo", Field.ctype "FOO", Field.dropFn "FOO_free"]
      ∧ Decl.countKind
          [Field.name "Foo", Field.ctype "FOO", Field.dropFn "FOO_free"] .cloneFn = 0
      ∧ ∃ g, generate [Field.name "Foo", Field.ctype "FOO", Field.dropFn "FOO_free"]
            = .ok g
          ∧ g.cloneFn = none ∧ GenOp.clone ∉ g.ops :=
  ⟨by decide, by decide,
    no_clone_without_config
      [Field.name "Foo", Field.ctype "FOO", Field.dropFn "FOO_free"]
      (by decide) (by decide)⟩

/-- C6: a malformed declaration — one missing a mandatory field or
supplying some field more than once — is rejected at generation time with
a diagnostic identifying the offending field as missing-mandatory or
conflicting. -/
theorem malformed_rejected (d : Decl) (hbad : ¬ d.wellFormed) :
    ∃ diag, generate d = .error diag
      ∧ ((diag.missing = true ∧ diag.offending.mandatory = true
            ∧ d.countKind diag.offending = 0)
        ∨ (diag.missing = false ∧ 2 ≤ d.countKind diag.offending)) := by
  by_cases e1 : 2 ≤ d.countKind .name
  · exact ⟨⟨.name, false⟩,
      generate_error_name d _ (Decl.checkKind_conflict d .name e1),
      Or.inr ⟨rfl, e1⟩⟩
  by_cases z1 : d.countKind .name = 0
  · exact ⟨⟨.name, true⟩,
      generate_error_name d _ (Decl.checkKind_missing d .name rfl z1),
      Or.inl ⟨rfl, rfl, z1⟩⟩
  have ok1 : d.checkKind .name = .ok () :=
    Decl.checkKind_ok d .name (fun _ => z1) (by omega)
  by_cases e2 : 2 ≤ d.countKind .ctype
  · exact ⟨⟨.ctype, false⟩,
      generate_error_ctype d _ ok1 (Decl.checkKind_conflict d .ctype e2),
      Or.inr ⟨rfl, e2⟩⟩
  by_cases z2 : d.countKind .ctype = 0
  · exact ⟨⟨.ctype, true⟩,
      generate_error_ctype d _ ok1 (Decl.checkKind_missing d .ctype rfl z2),
      Or.inl ⟨rfl, rfl, z2⟩⟩
  have ok2 : d.checkKind .ctype = .ok () :=
    Decl.checkKind_ok d .ctype (fun _ => z2) (by omega)
  by_cases e3 : 2 ≤ d.countKind .dropFn
  · exact ⟨⟨.dropFn, false⟩,
      generate_error_dropFn d _ ok1 ok2 (Decl.checkKind_conflict d .dropFn e3),
      Or.inr ⟨rfl, e3⟩⟩
  by_cases z3 : d.countKind .dropFn = 0
  · exact ⟨⟨.dropFn, true⟩,
      generate_error_dropFn d _ ok1 ok2
        (Decl.checkKind_missing d .dropFn rfl z3),
      Or.inl ⟨rfl, rfl, z3⟩⟩
  by_cases e4 : 2 ≤ d.countKind .cloneFn
  · have ok3 : d.checkKind .dropFn = .ok () :=
      Decl.checkKind_ok d .dropFn (fun _ => z3) (by omega)
    exact ⟨⟨.cloneFn, false⟩,
      generate_error_cloneFn d _ ok1 ok2 ok3
        (Decl.checkKind_conflict d .cloneFn e4),
      Or.inr ⟨rfl, e4⟩⟩
  · exact absurd ⟨by omega, by omega, by omega, by omega⟩ hbad

/-- Witness for C6 on a declaration supplying only the type name. -/
theorem malformed_rejected_witness :
    ¬ Decl.wellFormed [Field.name "Foo"]
      ∧ ∃ diag, generate [Field.name "Foo"] = .error diag
          ∧ ((diag.missing = true ∧ diag.offending.mandatory = true
                ∧ Decl.countKind [Field.name "Foo"] diag.offending = 0)
            ∨ (diag.missing = false
                ∧ 2 ≤ Decl.countKind [Field.name "Foo"] diag.offending)) :=
  ⟨by decide, malformed_rejected [Field.name "Foo"] (by decide)⟩

/-- C7: a declaration supplying each mandatory field exactly once and
nothing optional generates successfully; the generated pair releases the
configured operation's resource on disposal and exposes no duplication
capability. -/
theorem minimal_decl_generates (d : Decl) (h1 : d.countKind .name = 1)
    (h2 : d.countKind .ctype = 1) (h3 : d.countKind .dropFn = 1)
    (h4 : d.countKind .cloneFn = 0) :
    ∃ g, generate d = .ok g
      ∧ g.dropFn = (d.payload .dropFn).getD ""
      ∧ GenOp.drop ∈ g.ops
      ∧ g.cloneFn = none
      ∧ GenOp.clone ∉ g.ops := by
  refine ⟨_, generate_ok_of_wellFormed d ⟨h1, h2, h3, by omega⟩, rfl, ?_, ?_, ?_⟩
  · simp [Generated.ops]
  · simpa using Decl.payload_eq_none d .cloneFn h4
  · simp [Generated.ops, Decl.payload_eq_none d .cloneFn h4]

/-- Witness for C7 on the minimal concrete declaration. -/
theorem minimal_decl_generates_witness :
    Decl.countKind [Field.name "Bar", Field.ctype "BAR", Field.dropFn "BAR_free"]
        .name = 1
      ∧ Decl.countKind [Field.name "Bar", Field.ctype "BAR", Field.dropFn "BAR_free"]
          .ctype = 1
      ∧ Decl.countKind [Field.name "Bar", Field.ctype "BAR", Field.dropFn "BAR_free"]
          .dropFn = 1
      ∧ Decl.countKind [Field.name "Bar", Field.ctype "BAR", Field.dropFn "BAR_free"]
          .cloneFn = 0
      ∧ ∃ g, generate [Field.name "Bar", Field.ctype "BAR", Field.dropFn "BAR_free"]
            = .ok g
          ∧ g.dropFn = (Decl.payload
              [Field.name "Bar", Field.ctype "BAR", Field.dropFn "BAR_free"]
              .dropFn).getD ""
          ∧ GenOp.drop ∈ g.ops
          ∧ g.cloneFn = none
          ∧ GenOp.clone ∉ g.ops :=
  ⟨by decide, by decide, by decide, by decide,
    minimal_decl_generates
      [Field.name "Bar", Field.ctype "BAR", Field.dropFn "BAR_free"]
      (by decide) (by decide) (by decide) (by decide)⟩

/-- C8: the marker type cannot be constructed (so client code can neither
create nor copy a value of it), carries no information — all its
inhabitants would be equal — and the borrowed type wrapping it has no
values either: only references manufactured from raw pointers exist. -/
theorem marker_non_constructible :
    IsEmpty Opaque ∧ Subsingleton Opaque ∧ IsEmpty FooRef :=
  ⟨⟨fun x => nomatch x⟩, ⟨fun a _ => nomatch a⟩, ⟨fun r => nomatch r.repr⟩⟩

end ForeignTypes
